import Mathlib

/-!
Shallow embedding of `src/danmu_cli.py` (Douyin live danmu capture CLI) and
proofs about its room-lifecycle state machine, push-protocol frame handling,
heartbeat loop, stop idempotence, persisted record shape, timestamp
normalization and live-status probe.
-/

namespace DanmuCli

/-- Embeds `normalize_ts_ms` (src/danmu_cli.py lines 356-363).  The Python
literals `1_000_000_000_0`, `1_000_000_000_0000`, `1_000_000_000_0000000`
equal 10000000000, 10000000000000 and 10000000000000000; `//` on
non-negative ints is `Nat` division. -/
def normalize_ts_ms (ts : Nat) : Nat :=
  if ts < 10000000000 then ts * 1000
  else if ts < 10000000000000 then ts
  else if ts < 10000000000000000 then ts / 1000
  else ts / 1000000

/-- Python truthiness of the `pending_stop_deadline` field (`None` and `0`
are falsy, any other number is truthy). -/
def deadlineTruthy : Option Nat → Bool
  | none => false
  | some d => d != 0

/-- Mutable per-room state of `LiveTask` used by the poll loop
(src/danmu_cli.py lines 397-408): `running` (capture session active),
`pending_stop_deadline` (grace deadline, `None` when unset) and the resolved
`live_id` (empty string when resolution failed; Python tests it by
truthiness). -/
structure TaskState where
  running : Bool
  pending_stop_deadline : Option Nat
  live_id : String
  deriving Repr, DecidableEq

/-- Side effect of one poll iteration: session started (`start_fetch`),
session stopped (`stop_fetch`), or nothing. -/
inductive SideEffect where
  | startSession
  | stopSession
  | noop
  deriving Repr, DecidableEq

/-- Embeds the body of one poll iteration of `LiveTask.run`
(src/danmu_cli.py lines 420-436), after live-id re-resolution.  `now` is a
single sample of `time.time()` for the iteration and `grace` is
`grace_stop_seconds` (default `30 * 60`).

NOTE on fidelity: in the source, line 424
`if not self.running and self.live_id:` is followed by its intended body
(lines 425-427, the `start_fetch` call) at the *same* indentation level,
which is a Python `IndentationError` — the module as committed does not
compile.  This embedding restores the clearly intended indentation (lines
425-427 as the body of the line-424 guard), which is what the guard is for
and what the design's transition table describes. -/
def LiveTask.step (grace : Nat) (now : Nat) (is_live : Bool) (s : TaskState) :
    TaskState × SideEffect :=
  if is_live then
    -- `if self.pending_stop_deadline: self.pending_stop_deadline = None`
    let s := if deadlineTruthy s.pending_stop_deadline then
               { s with pending_stop_deadline := none } else s
    -- `if not self.running and self.live_id:` … `self.start_fetch(...)`
    -- (`start_fetch` sets `self.running = True`, line 451)
    if !s.running && s.live_id != "" then
      ({ s with running := true }, .startSession)
    else
      (s, .noop)
  else if s.running then
    -- `elif (not is_live) and self.running:`
    if !deadlineTruthy s.pending_stop_deadline then
      -- `self.pending_stop_deadline = time.time() + self.grace_stop_seconds`
      ({ s with pending_stop_deadline := some (now + grace) }, .noop)
    else if s.pending_stop_deadline.getD 0 ≤ now then
      -- `elif time.time() >= self.pending_stop_deadline:` …
      -- `self.pending_stop_deadline = None; self.stop_fetch()`
      -- (`stop_fetch` sets `self.running = False`, line 478)
      ({ s with pending_stop_deadline := none, running := false }, .stopSession)
    else
      (s, .noop)
  else
    (s, .noop)

/-- Runs `LiveTask.step` over a sequence of polls `(now, is_live)`,
collecting the side effect of each iteration. -/
def runPolls (grace : Nat) : List (Nat × Bool) → TaskState → TaskState × List SideEffect
  | [], s => (s, [])
  | p :: ps, s =>
      let r := LiveTask.step grace p.1 p.2 s
      let rest := runPolls grace ps r.1
      (rest.1, r.2 :: rest.2)

/-- Bytes of a wire message, abstractly (one `Nat` per byte). -/
abbrev Bytes := List Nat

/-- Fields of the protobuf `PushFrame` envelope used by
`DanmuFetcher._on_message` (src/danmu_cli.py lines 234-243). -/
structure PushFrameData where
  log_id : Nat
  payload_type : String
  payload : Bytes
  deriving Repr, DecidableEq

/-- One entry of `Response.messages_list`: its `method` tag and raw
protobuf payload (src/danmu_cli.py lines 245-249). -/
structure MsgEntry where
  method : String
  payload : Bytes
  deriving Repr, DecidableEq

/-- Modelled from the spec: the protobuf message types live in
`protobuf/douyin.py` (imported at src/danmu_cli.py line 36), which is not
under `src/`; the spec's persisted-record contract (§6) types `user_id` and
`user_name` as strings. -/
structure DouyinUser where
  id : String
  nick_name : String
  deriving Repr, DecidableEq

/-- Fields of a decoded `ChatMessage` used by the sink callback
(src/danmu_cli.py lines 455-468): `event_time`, `user`, `content`. -/
structure ChatMessageData where
  event_time : Nat
  user : DouyinUser
  content : String
  deriving Repr, DecidableEq

/-- Fields of a decoded `Response` used by `_on_message`
(src/danmu_cli.py lines 235-250): `need_ack`, `internal_ext`, `now`,
`messages_list`. -/
structure ResponseData where
  need_ack : Bool
  internal_ext : String
  now : Nat
  messages_list : List MsgEntry
  deriving Repr, DecidableEq

/-- Observable outbound activity of `_on_message`: sending the ack control
frame (log id echoed from the inbound frame, extension string from the
server's `internal_ext`), or dispatching one decoded chat message to the
`on_chat` sink together with the server's `now`. -/
inductive Action where
  | sendAck (log_id : Nat) (ext : String)
  | dispatch (chat : ChatMessageData) (server_now : Nat)
  deriving Repr, DecidableEq

/-- Whether an action is an ack send. -/
def Action.isAck : Action → Bool
  | .sendAck _ _ => true
  | .dispatch _ _ => false

/-- Errors that escape `_on_message` before any message is handled: the
envelope failed to parse, or the payload failed to decompress/parse
(spec §7: `MalformedFrame` / `DecompressionError`). -/
inductive FrameError where
  | malformedFrame
  | decompressionError
  deriving Repr, DecidableEq

/-- Embeds the per-message loop of `DanmuFetcher._on_message`
(src/danmu_cli.py lines 245-252): only entries whose `method` is
`"WebcastChatMessage"` are considered (`continue` otherwise); `parseChat`
models `ChatMessage().parse` (protobuf, an external library), `none`
meaning the parse raised; a raising entry is skipped
(`except Exception: continue`) and the rest of the batch proceeds. -/
def dispatchBatch (parseChat : Bytes → Option ChatMessageData)
    (server_now : Nat) (msgs : List MsgEntry) : List Action :=
  msgs.filterMap fun m =>
    if m.method = "WebcastChatMessage" then
      (parseChat m.payload).map fun c => Action.dispatch c server_now
    else none

/-- Embeds `DanmuFetcher._on_message` (src/danmu_cli.py lines 233-252).
`parseFrame` models `PushFrame().parse` and `decompressParse` models
`Response().parse(gzip.decompress ·)` — both external libraries, modelled
as `Option`-valued parameters whose `none` means the call raised; such an
exception escapes `_on_message` (there is no frame-level try/except).
On success the actions are: when `need_ack` is set, first the single ack
frame echoing `package.log_id` with the server's `internal_ext` (sent at
line 243, before the message loop runs), then one dispatch per decodable
chat message of the batch, in list order. -/
def onMessage (parseFrame : Bytes → Option PushFrameData)
    (decompressParse : Bytes → Option ResponseData)
    (parseChat : Bytes → Option ChatMessageData)
    (message : Bytes) : Except FrameError (List Action) :=
  match parseFrame message with
  | none => .error .malformedFrame
  | some package =>
      match decompressParse package.payload with
      | none => .error .decompressionError
      | some response =>
          let ackActions := if response.need_ack then
              [Action.sendAck package.log_id response.internal_ext] else []
          .ok (ackActions ++
            dispatchBatch parseChat response.now response.messages_list)

/-- Modelled from the spec: the receive loop that invokes `_on_message` per
inbound frame lives in the external websocket library
(`WebSocketApp.run_forever`, used at src/danmu_cli.py lines 210-219), not
under `src/`.  Per the spec (§4.1, §4.2, §8) an error while handling one
frame drops only that frame, not the connection: the dispatcher reports the
error and continues with the next inbound frame. -/
def receiveLoop (parseFrame : Bytes → Option PushFrameData)
    (decompressParse : Bytes → Option ResponseData)
    (parseChat : Bytes → Option ChatMessageData)
    (messages : List Bytes) : List (Except FrameError (List Action)) :=
  messages.map (onMessage parseFrame decompressParse parseChat)

/-- Result of the heartbeat loop: how many heartbeats were successfully
sent before the loop exited, and whether any exit path closed the stream /
signalled `StreamClosed`. -/
structure HeartbeatRun where
  sent : Nat
  closedStream : Bool
  deriving Repr, DecidableEq

/-- Embeds `DanmuFetcher._send_heartbeat` (src/danmu_cli.py lines 260-267)
as a function of the outcome of each successive `ws.send` attempt (`true` =
the send succeeded, `false` = the send raised).  The list ending models
`self._running` turning false (external stop).  On a send error the body is
`except Exception: break`: the loop exits; no close of the websocket and no
`StreamClosed`-style notification appears anywhere in the function, so
`closedStream` is `false` on every exit path. -/
def sendHeartbeatLoop : List Bool → HeartbeatRun
  | [] => ⟨0, false⟩
  | ok :: rest =>
      if ok then
        let r := sendHeartbeatLoop rest
        ⟨r.sent + 1, r.closedStream⟩
      else ⟨0, false⟩

/-- State of a `DanmuFetcher` relevant to `stop`: the `_running` flag and
the websocket (`none` before `start` assigns it, `some b` with `b` = still
open). -/
structure FetcherState where
  running : Bool
  ws : Option Bool
  deriving Repr, DecidableEq

/-- Embeds `DanmuFetcher.stop` (src/danmu_cli.py lines 223-226):
`self._running = False`; `if self.ws: self.ws.close()` (closing an already
closed websocket is itself a no-op). -/
def DanmuFetcher.stop (s : FetcherState) : FetcherState :=
  let s := { s with running := false }
  match s.ws with
  | some _ => { s with ws := some false }
  | none => s

/-- State of a `LiveTask` capture session relevant to `stop_fetch`: the
`running` flag, the fetcher (`none` until `start_fetch` creates it), and
the output file (`none` while the `out_file` attribute does not exist,
`some b` with `b` = still open). -/
structure SessionState where
  running : Bool
  fetcher : Option FetcherState
  out_file_open : Option Bool
  deriving Repr, DecidableEq

/-- Embeds `LiveTask.stop_fetch` (src/danmu_cli.py lines 477-484):
`self.running = False`; `if self.fetcher: self.fetcher.stop()`;
`self.ws_thread.join(timeout=5)` when present (no state change);
`self.out_file.close()` when present (a second `close()` on a Python file
object is a documented no-op).  Every branch is total: no exception. -/
def LiveTask.stop_fetch (s : SessionState) : SessionState :=
  let s := { s with running := false }
  let s := match s.fetcher with
    | some f => { s with fetcher := some (DanmuFetcher.stop f) }
    | none => s
  match s.out_file_open with
  | some _ => { s with out_file_open := some false }
  | none => s

/-- A session state with nothing left running or open. -/
def SessionState.isStopped (s : SessionState) : Bool :=
  !s.running &&
  (match s.fetcher with
   | some f => !f.running && (match f.ws with | some w => !w | none => true)
   | none => true) &&
  (match s.out_file_open with | some o => !o | none => true)

/-- Left-pads the decimal digits of `n` with zeros to width `w`, as the
fixed-width fields inside Python's `datetime.isoformat` output. -/
def padNum (w n : Nat) : String :=
  let s := toString n
  String.mk (List.replicate (w - s.length) '0') ++ s

/-- Civil Gregorian date (year, month, day) of a day count relative to
1970-01-01 (proleptic Gregorian calendar, the standard
days-from-civil inverse). -/
def civilFromDays (z0 : Int) : Int × Nat × Nat :=
  let z := z0 + 719468
  let era : Int := (if 0 ≤ z then z else z - 146096) / 146097
  let doe : Nat := (z - era * 146097).toNat
  let yoe : Nat := (doe - doe / 1460 + doe / 36524 - doe / 146096) / 365
  let y : Int := (yoe : Int) + era * 400
  let doy : Nat := doe - (365 * yoe + yoe / 4 - yoe / 100)
  let mp : Nat := (5 * doy + 2) / 153
  let d : Nat := doy - (153 * mp + 2) / 5 + 1
  let m : Nat := if mp < 10 then mp + 3 else mp - 9
  (if m ≤ 2 then y + 1 else y, m, d)

/-- The UTC-offset suffix Python's `isoformat` prints for a fixed-offset
timezone of `off` seconds (whole minutes assumed, as in the two offsets the
program configures at src/danmu_cli.py line 308: +8h or 0). -/
def offsetSuffix (off : Int) : String :=
  let sign := if off < 0 then "-" else "+"
  let a := off.natAbs
  sign ++ padNum 2 (a / 3600) ++ ":" ++ padNum 2 (a % 3600 / 60)

/-- Date-and-time part (no offset suffix) of the ISO-8601 rendering of `ms`
milliseconds since the Unix epoch displayed at offset `off` seconds:
`YYYY-MM-DDTHH:MM:SS[.ffffff]`, the 6-digit fractional part printed exactly
when nonzero, as Python's `isoformat` does. -/
def isoBody (off ms : Int) : String :=
  let total := ms + off * 1000
  let day : Int := total.fdiv 86400000
  let msOfDay : Nat := (total - day * 86400000).toNat
  let c := civilFromDays day
  let hh := msOfDay / 3600000
  let mm := msOfDay % 3600000 / 60000
  let ss := msOfDay % 60000 / 1000
  let msFrac := msOfDay % 1000
  let frac := if msFrac = 0 then "" else "." ++ padNum 6 (msFrac * 1000)
  padNum 4 c.1.toNat ++ "-" ++ padNum 2 c.2.1 ++ "-" ++ padNum 2 c.2.2 ++
    "T" ++ padNum 2 hh ++ ":" ++ padNum 2 mm ++ ":" ++ padNum 2 ss ++ frac

/-- Modelled from the spec: Python's
`datetime.fromtimestamp(seconds, tz).isoformat()` (standard library, not
under `src/`) at millisecond resolution for a fixed-offset timezone of
`off` seconds — the timezone-qualified ISO-8601 string, always ending in
the offset suffix. -/
def isoFromMs (off ms : Int) : String :=
  isoBody off ms ++ offsetSuffix off

/-- A JSON scalar as it appears in the persisted record: integer or
string. -/
inductive JsonValue where
  | int (i : Int)
  | str (s : String)
  deriving Repr, DecidableEq

/-- Embeds the record construction in `on_chat` inside
`LiveTask.start_fetch` (src/danmu_cli.py lines 455-468), as the ordered
key/value list of the JSON object written per chat event.  `recv_ms` is
`time.time()` at receipt in milliseconds (Python holds float seconds; the
record-shape claim does not depend on sub-millisecond digits), `off` the
configured display-timezone offset in seconds (src/danmu_cli.py line 308:
8 hours for Asia/Shanghai, otherwise 0). -/
def onChatRecord (off : Int) (chat : ChatMessageData) (server_now : Nat)
    (recv_ms : Int) : List (String × JsonValue) :=
  let event_ms := normalize_ts_ms chat.event_time
  let server_now_ms := normalize_ts_ms server_now
  [("event_ts_ms", .int event_ms),
   ("event_iso", .str (isoFromMs off event_ms)),
   ("server_now_ms", .int server_now_ms),
   ("server_now_iso", .str (isoFromMs off server_now_ms)),
   ("recv_iso", .str (isoFromMs off recv_ms)),
   ("user_id", .str chat.user.id),
   ("user_name", .str chat.user.nick_name),
   ("content", .str chat.content)]

/-- Fields of one room entry of the enter API's `data.data` list read by
`fetch_live_status` (src/danmu_cli.py lines 174-178); absent JSON keys are
`none`. -/
structure RoomInfo where
  status : Option Int
  anchor_name : Option String
  title : Option String
  deriving Repr, DecidableEq

/-- The `data.user` object (only `nickname` is read, line 177). -/
structure EnterUser where
  nickname : Option String
  deriving Repr, DecidableEq

/-- The parsed `data` object of the enter API response: the `data` room
list and the optional `user` object. -/
structure EnterData where
  rooms : List RoomInfo
  user : Option EnterUser
  deriving Repr, DecidableEq

/-- Return value of `fetch_live_status` (src/danmu_cli.py lines 135-184). -/
structure LiveStatus where
  is_live : Bool
  status : Option Int
  anchor : String
  title : String
  deriving Repr, DecidableEq

/-- Python `x or y` on an optional string field: `None` and `""` are falsy
and fall through to `y`. -/
def orStr (a : Option String) (b : String) : String :=
  match a with
  | some s => if s = "" then b else s
  | none => b

/-- Embeds `DanmuFetcher.fetch_live_status` (src/danmu_cli.py lines
135-184).  An empty `live_id` models the falsy check at line 140;
`resp = none` models `resp.json()` raising (non-JSON body, the
try/except at lines 169-173).  The HTTP transport itself (signing, the GET,
`raise_for_status`) is external and precedes both modelled branches. -/
def fetch_live_status (live_id : String) (resp : Option EnterData) :
    LiveStatus :=
  if live_id = "" then ⟨false, none, "", ""⟩
  else
    match resp with
    | none => ⟨false, none, "", ""⟩
    | some data =>
        let room_info := data.rooms.head?
        let status := room_info.bind (·.status)
        let anchor := orStr (room_info.bind (·.anchor_name))
          (orStr (data.user.bind (·.nickname)) "")
        let title := orStr (room_info.bind (·.title)) ""
        ⟨status == some 2, status, anchor, title⟩

/-! ### Step lemmas for the `LiveTask.run` poll-iteration state machine.
State mapping (spec §4.4): `IDLE` ↔ `running = false` (no deadline),
`CAPTURING` ↔ `running = true, pending_stop_deadline = none`,
`GRACE` ↔ `running = true, pending_stop_deadline = some d` with `d ≠ 0`
(every deadline the code sets is `time.time() + 1800 > 0`; Python tests the
field by truthiness, so `0` would read as "unset"). -/

theorem step_online_idle (grace now : Nat) (lid : String) (hlid : lid ≠ "") :
    LiveTask.step grace now true ⟨false, none, lid⟩ =
      (⟨true, none, lid⟩, .startSession) := by
  simp [LiveTask.step, deadlineTruthy, hlid]

theorem step_offline_idle (grace now : Nat) (p : Option Nat) (lid : String) :
    LiveTask.step grace now false ⟨false, p, lid⟩ = (⟨false, p, lid⟩, .noop) := by
  simp [LiveTask.step]

theorem step_online_capturing (grace now : Nat) (lid : String) :
    LiveTask.step grace now true ⟨true, none, lid⟩ = (⟨true, none, lid⟩, .noop) := by
  simp [LiveTask.step, deadlineTruthy]

theorem step_offline_fresh (grace now : Nat) (lid : String) :
    LiveTask.step grace now false ⟨true, none, lid⟩ =
      (⟨true, some (now + grace), lid⟩, .noop) := by
  simp [LiveTask.step, deadlineTruthy]

theorem step_online_grace (grace now d : Nat) (lid : String) (hd : d ≠ 0) :
    LiveTask.step grace now true ⟨true, some d, lid⟩ =
      (⟨true, none, lid⟩, .noop) := by
  simp [LiveTask.step, deadlineTruthy, hd]

theorem step_offline_wait (grace now d : Nat) (lid : String) (hd : d ≠ 0)
    (h : now < d) :
    LiveTask.step grace now false ⟨true, some d, lid⟩ =
      (⟨true, some d, lid⟩, .noop) := by
  simp [LiveTask.step, deadlineTruthy, hd, Nat.not_le.mpr h]

theorem step_offline_expire (grace now d : Nat) (lid : String) (hd : d ≠ 0)
    (h : d ≤ now) :
    LiveTask.step grace now false ⟨true, some d, lid⟩ =
      (⟨false, none, lid⟩, .stopSession) := by
  simp [LiveTask.step, deadlineTruthy, hd, h]

/-! ### Run lemmas over poll sequences. -/

theorem runPolls_append (grace : Nat) (ps qs : List (Nat × Bool)) (s : TaskState) :
    runPolls grace (ps ++ qs) s =
      ((runPolls grace qs (runPolls grace ps s).1).1,
       (runPolls grace ps s).2 ++ (runPolls grace qs (runPolls grace ps s).1).2) := by
  induction ps generalizing s with
  | nil => simp [runPolls]
  | cons p ps ih => simp [runPolls, ih]

theorem runPolls_grace_wait (grace d : Nat) (lid : String) (ts : List Nat)
    (hd : d ≠ 0) (h : ∀ u ∈ ts, u < d) :
    runPolls grace (ts.map fun u => (u, false)) ⟨true, some d, lid⟩ =
      (⟨true, some d, lid⟩, List.replicate ts.length .noop) := by
  induction ts with
  | nil => simp [runPolls]
  | cons u ts ih =>
      simp [runPolls, step_offline_wait grace u d lid hd (h u (by simp)),
        ih (fun v hv => h v (List.mem_cons_of_mem u hv)), List.replicate_succ]

theorem runPolls_offline_idle (grace : Nat) (p : Option Nat) (lid : String)
    (ts : List Nat) :
    runPolls grace (ts.map fun u => (u, false)) ⟨false, p, lid⟩ =
      (⟨false, p, lid⟩, List.replicate ts.length .noop) := by
  induction ts with
  | nil => simp [runPolls]
  | cons u ts ih =>
      simp [runPolls, step_offline_idle grace u p lid, ih, List.replicate_succ]

/-! ### Heartbeat-loop lemmas. -/

theorem sendHeartbeatLoop_never_closes (outcomes : List Bool) :
    (sendHeartbeatLoop outcomes).closedStream = false := by
  induction outcomes with
  | nil => rfl
  | cons x xs ih => cases x <;> simp [sendHeartbeatLoop, ih]

theorem sendHeartbeatLoop_stops_at_error (post : List Bool) :
    ∀ pre : List Bool, (∀ x ∈ pre, x = true) →
      sendHeartbeatLoop (pre ++ false :: post) = ⟨pre.length, false⟩ := by
  intro pre
  induction pre with
  | nil => intro _; rfl
  | cons x xs ih =>
      intro h
      have hx := h x (List.mem_cons_self x xs)
      subst hx
      simp [sendHeartbeatLoop,
        ih (fun y hy => h y (List.mem_cons_of_mem _ hy))]

end DanmuCli

namespace DanmuCli

/-- C3 -- Timestamp normalization: for every non-negative integer raw
timestamp `ts`, `normalize_ts_ms` returns `ts*1000` when `ts < 10^10`, `ts`
unchanged when `10^10 ≤ ts < 10^13`, `ts / 1000` when
`10^13 ≤ ts < 10^16`, and `ts / 1000000` otherwise; in particular
`1600000000 ↦ 1600000000000`, `1600000000000` is unchanged,
`1600000000000000 ↦ 1600000000000`, and
`1600000000000000000 ↦ 1600000000000`. -/
theorem normalize_ts_ms_spec (ts : Nat) :
    (ts < 10 ^ 10 → normalize_ts_ms ts = ts * 1000) ∧
    (10 ^ 10 ≤ ts → ts < 10 ^ 13 → normalize_ts_ms ts = ts) ∧
    (10 ^ 13 ≤ ts → ts < 10 ^ 16 → normalize_ts_ms ts = ts / 1000) ∧
    (10 ^ 16 ≤ ts → normalize_ts_ms ts = ts / 1000000) ∧
    normalize_ts_ms 1600000000 = 1600000000000 ∧
    normalize_ts_ms 1600000000000 = 1600000000000 ∧
    normalize_ts_ms 1600000000000000 = 1600000000000 ∧
    normalize_ts_ms 1600000000000000000 = 1600000000000 := by
  refine ⟨?_, ?_, ?_, ?_, by decide, by decide, by decide, by decide⟩ <;>
    intros <;> unfold normalize_ts_ms <;> split_ifs <;> omega

/-- Witness for `normalize_ts_ms_spec`: instantiates the piecewise branches
at concrete inputs. -/
theorem normalize_ts_ms_spec_witness :
    normalize_ts_ms 7 = 7000 ∧
    normalize_ts_ms 20000000000 = 20000000000 ∧
    normalize_ts_ms 20000000000000 = 20000000000 ∧
    normalize_ts_ms 20000000000000000 = 20000000000 :=
  ⟨(normalize_ts_ms_spec 7).1 (by norm_num),
   (normalize_ts_ms_spec 20000000000).2.1 (by norm_num) (by norm_num),
   (normalize_ts_ms_spec 20000000000000).2.2.1 (by norm_num) (by norm_num),
   (normalize_ts_ms_spec 20000000000000000).2.2.2.1 (by norm_num)⟩

/-- C1 -- Room-monitor transition table (§4.4), proved over `LiveTask.step`,
the embedding of the intended poll-iteration body: IDLE + live + resolvable
id → CAPTURING, start session; IDLE + offline → IDLE, no-op; CAPTURING +
live → CAPTURING, no-op; CAPTURING + offline → GRACE with deadline
`now + grace`; GRACE + live → CAPTURING, deadline cleared; GRACE + offline
before the deadline → GRACE, no-op; GRACE + offline at/past the deadline →
IDLE, stop session, deadline cleared.  (The committed source cannot execute
any of these transitions: line 424's `if` has an empty body, an
`IndentationError`; see `LiveTask.step`'s doc comment.) -/
theorem liveTask_transition_table (grace now d : Nat) (lid : String)
    (hd : 0 < d) :
    (lid ≠ "" →
      LiveTask.step grace now true ⟨false, none, lid⟩ =
        (⟨true, none, lid⟩, .startSession)) ∧
    (LiveTask.step grace now false ⟨false, none, lid⟩ =
        (⟨false, none, lid⟩, .noop)) ∧
    (LiveTask.step grace now true ⟨true, none, lid⟩ =
        (⟨true, none, lid⟩, .noop)) ∧
    (LiveTask.step grace now false ⟨true, none, lid⟩ =
        (⟨true, some (now + grace), lid⟩, .noop)) ∧
    (LiveTask.step grace now true ⟨true, some d, lid⟩ =
        (⟨true, none, lid⟩, .noop)) ∧
    (now < d →
      LiveTask.step grace now false ⟨true, some d, lid⟩ =
        (⟨true, some d, lid⟩, .noop)) ∧
    (d ≤ now →
      LiveTask.step grace now false ⟨true, some d, lid⟩ =
        (⟨false, none, lid⟩, .stopSession)) :=
  have hd0 : d ≠ 0 := Nat.pos_iff_ne_zero.mp hd
  ⟨fun hlid => step_online_idle grace now lid hlid,
   step_offline_idle grace now none lid,
   step_online_capturing grace now lid,
   step_offline_fresh grace now lid,
   step_online_grace grace now d lid hd0,
   fun h => step_offline_wait grace now d lid hd0 h,
   fun h => step_offline_expire grace now d lid hd0 h⟩

/-- Witness for `liveTask_transition_table`: evaluates the table's
conditional rows at concrete inputs (two instantiations, since the
"before deadline" and "at/past deadline" rows need opposite inputs). -/
theorem liveTask_transition_table_witness :
    LiveTask.step 60 100 true ⟨false, none, "510"⟩ =
      (⟨true, none, "510"⟩, .startSession) ∧
    LiveTask.step 60 3 false ⟨true, some 5, "510"⟩ =
      (⟨true, some 5, "510"⟩, .noop) ∧
    LiveTask.step 60 100 false ⟨true, some 5, "510"⟩ =
      (⟨false, none, "510"⟩, .stopSession) :=
  ⟨(liveTask_transition_table 60 100 5 "510" (by decide)).1 (by decide),
   (liveTask_transition_table 60 3 5 "510" (by decide)).2.2.2.2.2.1 (by decide),
   (liveTask_transition_table 60 100 5 "510" (by decide)).2.2.2.2.2.2 (by decide)⟩

/-- C2 -- Grace hysteresis over whole poll sequences, from a CAPTURING
state.  (1) If `is_live` goes false (first offline poll at `t1`, setting the
deadline `t1 + grace`), stays false only while before the deadline, and then
flips back to true, the session is never stopped (every effect is a no-op)
and the grace deadline ends up cleared, back in CAPTURING.  (2) While
offline polls stay before the deadline, the session is still not stopped and
the deadline is unchanged.  (3) If `is_live` never returns true, the session
is stopped exactly once — at the first poll whose time reaches the deadline,
never before it — and the monitor ends IDLE with the deadline cleared. -/
theorem grace_hysteresis (grace t1 : Nat) (lid : String)
    (hpos : 0 < t1 + grace) :
    (∀ (rest : List Nat) (t : Nat), (∀ u ∈ rest, u < t1 + grace) →
      runPolls grace (((t1 :: rest).map fun u => (u, false)) ++ [(t, true)])
          ⟨true, none, lid⟩ =
        (⟨true, none, lid⟩, List.replicate (rest.length + 2) .noop)) ∧
    (∀ (rest : List Nat), (∀ u ∈ rest, u < t1 + grace) →
      runPolls grace ((t1 :: rest).map fun u => (u, false)) ⟨true, none, lid⟩ =
        (⟨true, some (t1 + grace), lid⟩, List.replicate (rest.length + 1) .noop)) ∧
    (∀ (a : List Nat) (b : Nat) (c : List Nat),
      (∀ u ∈ a, u < t1 + grace) → t1 + grace ≤ b →
      runPolls grace ((t1 :: (a ++ b :: c)).map fun u => (u, false))
          ⟨true, none, lid⟩ =
        (⟨false, none, lid⟩,
         .noop :: (List.replicate a.length .noop ++
           .stopSession :: List.replicate c.length .noop))) := by
  have hd0 : t1 + grace ≠ 0 := Nat.pos_iff_ne_zero.mp hpos
  refine ⟨?_, ?_, ?_⟩
  · intro rest t hrest
    rw [List.map_cons, List.cons_append]
    simp only [runPolls, step_offline_fresh grace t1 lid]
    rw [runPolls_append, runPolls_grace_wait grace (t1 + grace) lid rest hd0 hrest]
    simp [runPolls, step_online_grace grace t (t1 + grace) lid hd0,
      List.replicate_succ, ← List.replicate_succ']
  · intro rest hrest
    rw [List.map_cons]
    simp only [runPolls, step_offline_fresh grace t1 lid]
    rw [runPolls_grace_wait grace (t1 + grace) lid rest hd0 hrest]
    simp [List.replicate_succ]
  · intro a b c ha hb
    rw [List.map_cons]
    simp only [runPolls, step_offline_fresh grace t1 lid]
    rw [List.map_append, runPolls_append,
      runPolls_grace_wait grace (t1 + grace) lid a hd0 ha]
    simp [runPolls, step_offline_expire grace b (t1 + grace) lid hd0 hb,
      runPolls_offline_idle grace none lid c]

/-- Witness for `grace_hysteresis`: a flip-back run (offline at 10 and 20,
back online at 25, grace window 60) is all no-ops and ends CAPTURING with
the deadline cleared; an offline-forever run (offline at 10, 20, 80, 90,
grace window 60) stops exactly once, at time 80 ≥ 70, and ends IDLE. -/
theorem grace_hysteresis_witness :
    runPolls 60 [(10, false), (20, false), (25, true)] ⟨true, none, "510"⟩ =
      (⟨true, none, "510"⟩, [.noop, .noop, .noop]) ∧
    runPolls 60 [(10, false), (20, false), (80, false), (90, false)]
        ⟨true, none, "510"⟩ =
      (⟨false, none, "510"⟩, [.noop, .noop, .stopSession, .noop]) :=
  ⟨(grace_hysteresis 60 10 "510" (by decide)).1 [20] 25 (by decide),
   (grace_hysteresis 60 10 "510" (by decide)).2.2 [20] 80 [90]
     (by decide) (by decide)⟩

/-- C4 -- For every inbound frame whose decoded envelope has `need_ack`
set, `_on_message` produces exactly one outbound ack frame — echoing that
frame's own `log_id` together with the server-supplied `internal_ext`
bytes — and the ack comes before any dispatch of the frame's batch: it is
the head of the action sequence, and the batch itself contributes no
further ack. -/
theorem ack_before_dispatch (pF : Bytes → Option PushFrameData)
    (dP : Bytes → Option ResponseData) (pC : Bytes → Option ChatMessageData)
    (message : Bytes) (package : PushFrameData) (response : ResponseData)
    (h1 : pF message = some package) (h2 : dP package.payload = some response)
    (h3 : response.need_ack = true) :
    onMessage pF dP pC message =
      .ok (Action.sendAck package.log_id response.internal_ext ::
        dispatchBatch pC response.now response.messages_list) ∧
    ∀ a ∈ dispatchBatch pC response.now response.messages_list,
      a.isAck = false := by
  constructor
  · simp [onMessage, h1, h2, h3]
  · intro a ha
    simp only [dispatchBatch, List.mem_filterMap] at ha
    obtain ⟨m, _, hm⟩ := ha
    split at hm
    · obtain ⟨c, _, hc⟩ := Option.map_eq_some'.mp hm
      subst hc
      rfl
    · simp at hm

/-- Witness for `ack_before_dispatch` at a concrete ack-requesting frame:
the ack (log id 7, extension "ext") is emitted first, then the batch's one
chat dispatch. -/
theorem ack_before_dispatch_witness :
    onMessage (fun _ => some ⟨7, "msg", [1]⟩)
        (fun _ => some ⟨true, "ext", 123, [⟨"WebcastChatMessage", [2]⟩]⟩)
        (fun _ => some ⟨1600000000, ⟨"u1", "nick"⟩, "hello"⟩) [0] =
      .ok [Action.sendAck 7 "ext",
           Action.dispatch ⟨1600000000, ⟨"u1", "nick"⟩, "hello"⟩ 123] :=
  (ack_before_dispatch (fun _ => some ⟨7, "msg", [1]⟩)
    (fun _ => some ⟨true, "ext", 123, [⟨"WebcastChatMessage", [2]⟩]⟩)
    (fun _ => some ⟨1600000000, ⟨"u1", "nick"⟩, "hello"⟩) [0]
    ⟨7, "msg", [1]⟩ ⟨true, "ext", 123, [⟨"WebcastChatMessage", [2]⟩]⟩
    rfl rfl rfl).1

/-- C5 -- A frame whose envelope fails to parse or whose payload fails to
decompress is dropped alone: the receive loop's output on
`pre ++ bad :: post` is its output on `pre`, then the frame error, then its
output on `post` — so the error does not terminate the connection and the
next frame is processed exactly as it would be otherwise; the loop handles
all frames of the connection. -/
theorem frame_error_drops_only_frame (pF : Bytes → Option PushFrameData)
    (dP : Bytes → Option ResponseData) (pC : Bytes → Option ChatMessageData)
    (pre post : List Bytes) (m : Bytes) (e : FrameError)
    (hm : onMessage pF dP pC m = .error e) :
    receiveLoop pF dP pC (pre ++ m :: post) =
      receiveLoop pF dP pC pre ++ .error e :: receiveLoop pF dP pC post ∧
    (receiveLoop pF dP pC (pre ++ m :: post)).length =
      pre.length + 1 + post.length := by
  refine ⟨by simp [receiveLoop, hm], ?_⟩
  simp [receiveLoop]
  omega

/-- Witness for `frame_error_drops_only_frame`: on a connection receiving a
gzip-garbage frame then a good chat frame, the loop yields the
decompression error for the first and still dispatches the second's chat
message. -/
theorem frame_error_drops_only_frame_witness :
    receiveLoop (fun b => some ⟨5, "msg", b⟩)
        (fun b => if b = [9] then none else
          some ⟨false, "", 50, [⟨"WebcastChatMessage", [2]⟩]⟩)
        (fun _ => some ⟨1600000000, ⟨"u1", "nick"⟩, "hi"⟩) [[9], [2]] =
      [.error .decompressionError,
       .ok [Action.dispatch ⟨1600000000, ⟨"u1", "nick"⟩, "hi"⟩ 50]] :=
  (frame_error_drops_only_frame (fun b => some ⟨5, "msg", b⟩)
    (fun b => if b = [9] then none else
      some ⟨false, "", 50, [⟨"WebcastChatMessage", [2]⟩]⟩)
    (fun _ => some ⟨1600000000, ⟨"u1", "nick"⟩, "hi"⟩)
    [] [[2]] [9] .decompressionError rfl).1

/-- C6 -- Per-batch dispatch: (1) an entry with a non-chat method, or whose
chat payload fails to decode, contributes nothing — the entries around it
are processed exactly as without it; (2) a chat-tagged entry whose payload
decodes is dispatched in place with the batch's server `now`; (3) every
dispatched action stems from a chat-tagged entry whose payload decoded,
with the batch's `now`; (4) message-level failures never become a
frame-level error: when the envelope parses and the payload decompresses,
`_on_message` returns normally whatever the chat parser does. -/
theorem batch_dispatch_only_chat (pC : Bytes → Option ChatMessageData)
    (server_now : Nat) :
    (∀ (a b : List MsgEntry) (m : MsgEntry),
      m.method ≠ "WebcastChatMessage" ∨ pC m.payload = none →
      dispatchBatch pC server_now (a ++ m :: b) =
        dispatchBatch pC server_now a ++ dispatchBatch pC server_now b) ∧
    (∀ (a b : List MsgEntry) (m : MsgEntry) (c : ChatMessageData),
      m.method = "WebcastChatMessage" → pC m.payload = some c →
      dispatchBatch pC server_now (a ++ m :: b) =
        dispatchBatch pC server_now a ++
          Action.dispatch c server_now :: dispatchBatch pC server_now b) ∧
    (∀ (msgs : List MsgEntry) (c : ChatMessageData) (n : Nat),
      Action.dispatch c n ∈ dispatchBatch pC server_now msgs →
      n = server_now ∧ ∃ m ∈ msgs, m.method = "WebcastChatMessage" ∧
        pC m.payload = some c) ∧
    (∀ (pF : Bytes → Option PushFrameData)
      (dP : Bytes → Option ResponseData)
      (msg : Bytes) (package : PushFrameData) (response : ResponseData),
      pF msg = some package → dP package.payload = some response →
      ∃ acts, onMessage pF dP pC msg = .ok acts) := by
  refine ⟨?_, ?_, ?_, ?_⟩
  · intro a b m h
    rcases h with h | h
    · simp [dispatchBatch, h]
    · by_cases hM : m.method = "WebcastChatMessage" <;>
        simp_all [dispatchBatch]
  · intro a b m c h1 h2
    simp [dispatchBatch, h1, h2]
  · intro msgs c n hmem
    simp only [dispatchBatch, List.mem_filterMap] at hmem
    obtain ⟨m, hm, hfm⟩ := hmem
    split at hfm
    · obtain ⟨x, hx, hfx⟩ := Option.map_eq_some'.mp hfm
      obtain ⟨rfl, rfl⟩ : x = c ∧ server_now = n := by
        injection hfx with h1 h2
        exact ⟨h1, h2⟩
      exact ⟨rfl, m, hm, by assumption, hx⟩
    · simp at hfm
  · intro pF dP msg package response h1 h2
    refine ⟨(if response.need_ack = true then
        [Action.sendAck package.log_id response.internal_ext] else []) ++
      dispatchBatch pC response.now response.messages_list, ?_⟩
    simp [onMessage, h1, h2]

/-- Witness for `batch_dispatch_only_chat`: the end-to-end batch — a chat
message "hello" from user "u1", a non-chat gift message, a chat entry with
an undecodable payload — dispatches exactly the "hello" event; dropping
the non-chat and undecodable entries is witnessed position by position,
and a frame whose batch is only the undecodable entry still completes
without a frame-level error. -/
theorem batch_dispatch_only_chat_witness :
    (dispatchBatch (fun b => if b = [3] then none else
        some ⟨1600000000, ⟨"u1", "nick"⟩, "hello"⟩) 42
      ([⟨"WebcastChatMessage", [1]⟩] ++ ⟨"WebcastGiftMessage", [2]⟩ ::
        [⟨"WebcastChatMessage", [3]⟩]) =
      dispatchBatch (fun b => if b = [3] then none else
        some ⟨1600000000, ⟨"u1", "nick"⟩, "hello"⟩) 42
        [⟨"WebcastChatMessage", [1]⟩] ++
      dispatchBatch (fun b => if b = [3] then none else
        some ⟨1600000000, ⟨"u1", "nick"⟩, "hello"⟩) 42
        [⟨"WebcastChatMessage", [3]⟩]) ∧
    (dispatchBatch (fun b => if b = [3] then none else
        some ⟨1600000000, ⟨"u1", "nick"⟩, "hello"⟩) 42
      ([] ++ (⟨"WebcastChatMessage", [3]⟩ : MsgEntry) :: []) =
      [] ++ []) ∧
    (dispatchBatch (fun b => if b = [3] then none else
        some ⟨1600000000, ⟨"u1", "nick"⟩, "hello"⟩) 42
      ([] ++ (⟨"WebcastChatMessage", [1]⟩ : MsgEntry) :: []) =
      [] ++ Action.dispatch ⟨1600000000, ⟨"u1", "nick"⟩, "hello"⟩ 42 :: []) ∧
    (∃ acts, onMessage (fun _ => some ⟨9, "m", [0]⟩)
      (fun _ => some ⟨false, "", 42, [⟨"WebcastChatMessage", [3]⟩]⟩)
      (fun b => if b = [3] then none else
        some ⟨1600000000, ⟨"u1", "nick"⟩, "hello"⟩) [0] = .ok acts) :=
  have h := batch_dispatch_only_chat (fun b => if b = [3] then none else
    some ⟨1600000000, ⟨"u1", "nick"⟩, "hello"⟩) 42
  ⟨h.1 [⟨"WebcastChatMessage", [1]⟩] [⟨"WebcastChatMessage", [3]⟩]
      ⟨"WebcastGiftMessage", [2]⟩ (Or.inl (by decide)),
   h.1 [] [] ⟨"WebcastChatMessage", [3]⟩ (Or.inr rfl),
   h.2.1 [] [] ⟨"WebcastChatMessage", [1]⟩
     ⟨1600000000, ⟨"u1", "nick"⟩, "hello"⟩ rfl rfl,
   h.2.2.2 (fun _ => some ⟨9, "m", [0]⟩)
     (fun _ => some ⟨false, "", 42, [⟨"WebcastChatMessage", [3]⟩]⟩)
     [0] ⟨9, "m", [0]⟩ ⟨false, "", 42, [⟨"WebcastChatMessage", [3]⟩]⟩
     rfl rfl⟩

/-- C7 counterexample: a single heartbeat attempt whose send raises — the
loop exits without closing anything, so "the stream terminates with a
StreamClosed notification" is false for this send error: no exit path of
`_send_heartbeat` closes the stream. -/
theorem heartbeat_send_error_cex :
    false ∈ [false] ∧ (sendHeartbeatLoop [false]).closedStream ≠ true := by
  decide

/-- C7 amended -- a heartbeat send error is fatal only to the heartbeat
loop, not to the stream: the loop stops at the first failed send (the
remaining scheduled heartbeats are never attempted), but it closes nothing
— no exit path of `_send_heartbeat` closes the websocket or raises a
`StreamClosed`-style notification, so the connection continues without
heartbeats. -/
theorem heartbeat_send_error_stops_only_loop (pre post : List Bool)
    (hpre : ∀ x ∈ pre, x = true) :
    sendHeartbeatLoop (pre ++ false :: post) = ⟨pre.length, false⟩ ∧
    ∀ outcomes, (sendHeartbeatLoop outcomes).closedStream = false :=
  ⟨sendHeartbeatLoop_stops_at_error post pre hpre,
   fun outcomes => sendHeartbeatLoop_never_closes outcomes⟩

/-- Witness for `heartbeat_send_error_stops_only_loop`: two successful
heartbeats, then a send error — the loop ends with 2 sends and no stream
close. -/
theorem heartbeat_send_error_stops_only_loop_witness :
    sendHeartbeatLoop [true, true, false, true] = ⟨2, false⟩ ∧
    (sendHeartbeatLoop [true, true]).closedStream = false :=
  have h := heartbeat_send_error_stops_only_loop [true, true] [true] (by decide)
  ⟨h.1, h.2 [true, true]⟩

/-- C8 -- `stop()` on an already stopped capture session is a no-op: the
embedded `stop_fetch` is a total function (nothing raises), it fixes every
already-stopped state, calling it twice in a row equals calling it once
from any state, it always leaves a stopped state, and the inner
`DanmuFetcher.stop` is likewise idempotent. -/
theorem stop_fetch_idempotent :
    (∀ s : SessionState, s.isStopped = true → LiveTask.stop_fetch s = s) ∧
    (∀ s : SessionState,
      LiveTask.stop_fetch (LiveTask.stop_fetch s) = LiveTask.stop_fetch s) ∧
    (∀ s : SessionState, (LiveTask.stop_fetch s).isStopped = true) ∧
    (∀ f : FetcherState,
      DanmuFetcher.stop (DanmuFetcher.stop f) = DanmuFetcher.stop f) := by
  refine ⟨?_, ?_, ?_, ?_⟩
  · intro s h
    rcases s with ⟨r, f, o⟩
    rcases f with _ | ⟨fr, fw⟩
    · rcases o with _ | o <;>
        simp_all [SessionState.isStopped, LiveTask.stop_fetch]
    · rcases fw with _ | w <;> rcases o with _ | o <;>
        simp_all [SessionState.isStopped, LiveTask.stop_fetch,
          DanmuFetcher.stop]
  · intro s
    rcases s with ⟨r, f, o⟩
    rcases f with _ | ⟨fr, fw⟩
    · rcases o with _ | o <;> simp [LiveTask.stop_fetch]
    · rcases fw with _ | w <;> rcases o with _ | o <;>
        simp [LiveTask.stop_fetch, DanmuFetcher.stop]
  · intro s
    rcases s with ⟨r, f, o⟩
    rcases f with _ | ⟨fr, fw⟩
    · rcases o with _ | o <;>
        simp [SessionState.isStopped, LiveTask.stop_fetch]
    · rcases fw with _ | w <;> rcases o with _ | o <;>
        simp [SessionState.isStopped, LiveTask.stop_fetch, DanmuFetcher.stop]
  · intro f
    rcases f with ⟨fr, fw⟩
    rcases fw with _ | w <;> simp [DanmuFetcher.stop]

/-- Witness for `stop_fetch_idempotent`: a session whose flag, fetcher,
websocket and output file are all already stopped/closed is fixed by
`stop_fetch`. -/
theorem stop_fetch_idempotent_witness :
    LiveTask.stop_fetch ⟨false, some ⟨false, some false⟩, some false⟩ =
      ⟨false, some ⟨false, some false⟩, some false⟩ :=
  stop_fetch_idempotent.1 ⟨false, some ⟨false, some false⟩, some false⟩ rfl

/-- C9 -- The persisted record carries exactly the fields `event_ts_ms`,
`event_iso`, `server_now_ms`, `server_now_iso`, `recv_iso`, `user_id`,
`user_name`, `content`, in this order: the `*_ms` fields hold the
normalized integer milliseconds, `user_id`/`user_name`/`content` hold the
chat's strings, and every `*_iso` field is an ISO-8601 string that ends in
the display timezone's offset suffix (`"+08:00"` for the configured
Asia/Shanghai offset; the final conjunct checks a full concrete
rendering). -/
theorem chat_record_shape (off : Int) (chat : ChatMessageData)
    (server_now : Nat) (recv_ms : Int) :
    (onChatRecord off chat server_now recv_ms).map Prod.fst =
      ["event_ts_ms", "event_iso", "server_now_ms", "server_now_iso",
       "recv_iso", "user_id", "user_name", "content"] ∧
    (onChatRecord off chat server_now recv_ms).lookup "event_ts_ms" =
      some (.int (normalize_ts_ms chat.event_time)) ∧
    (onChatRecord off chat server_now recv_ms).lookup "event_iso" =
      some (.str (isoBody off (normalize_ts_ms chat.event_time) ++
        offsetSuffix off)) ∧
    (onChatRecord off chat server_now recv_ms).lookup "server_now_ms" =
      some (.int (normalize_ts_ms server_now)) ∧
    (onChatRecord off chat server_now recv_ms).lookup "server_now_iso" =
      some (.str (isoBody off (normalize_ts_ms server_now) ++
        offsetSuffix off)) ∧
    (onChatRecord off chat server_now recv_ms).lookup "recv_iso" =
      some (.str (isoBody off recv_ms ++ offsetSuffix off)) ∧
    (onChatRecord off chat server_now recv_ms).lookup "user_id" =
      some (.str chat.user.id) ∧
    (onChatRecord off chat server_now recv_ms).lookup "user_name" =
      some (.str chat.user.nick_name) ∧
    (onChatRecord off chat server_now recv_ms).lookup "content" =
      some (.str chat.content) ∧
    offsetSuffix (8 * 3600) = "+08:00" ∧
    isoFromMs (8 * 3600) 1600000000000 = "2020-09-13T20:26:40+08:00" :=
  ⟨rfl, rfl, rfl, rfl, rfl, rfl, rfl, rfl, rfl, rfl, rfl⟩

/-- C10 -- The live-status probe reports live exactly when the platform
status code equals 2: in every returned value `is_live` equals the test
`status == 2`; for a parsed response with a nonempty room id, `is_live` is
true iff the first room entry's status is 2; and an empty room identifier
or an unparseable (non-JSON) body returns
`{is_live := false, status := none}` (with empty anchor and title) instead
of raising. -/
theorem fetch_live_status_spec :
    (∀ live_id resp, (fetch_live_status live_id resp).is_live =
      ((fetch_live_status live_id resp).status == some 2)) ∧
    (∀ live_id data, live_id ≠ "" →
      ((fetch_live_status live_id (some data)).is_live = true ↔
        data.rooms.head?.bind (fun r => r.status) = some 2)) ∧
    (∀ resp, fetch_live_status "" resp = ⟨false, none, "", ""⟩) ∧
    (∀ live_id, fetch_live_status live_id none = ⟨false, none, "", ""⟩) := by
  refine ⟨?_, ?_, ?_, ?_⟩
  · intro live_id resp
    by_cases h : live_id = ""
    · subst h
      rcases resp with _ | data <;> simp [fetch_live_status]
    · rcases resp with _ | data <;> simp [fetch_live_status, h]
  · intro live_id data h
    simp [fetch_live_status, h]
  · intro resp
    rcases resp with _ | data <;> simp [fetch_live_status]
  · intro live_id
    by_cases h : live_id = "" <;> simp [fetch_live_status, h]

/-- Witness for `fetch_live_status_spec`: a parsed response whose first
room entry has status 2 is reported live; one with status 4 (the
platform's "replay/closed") is not. -/
theorem fetch_live_status_spec_witness :
    (fetch_live_status "510"
      (some ⟨[⟨some 2, some "a", some "t"⟩], none⟩)).is_live = true ∧
    (fetch_live_status "510"
      (some ⟨[⟨some 4, some "a", some "t"⟩], none⟩)).is_live ≠ true :=
  ⟨(fetch_live_status_spec.2.1 "510" ⟨[⟨some 2, some "a", some "t"⟩], none⟩
      (by decide)).mpr rfl,
   fun hc => by
     have := (fetch_live_status_spec.2.1 "510"
       ⟨[⟨some 4, some "a", some "t"⟩], none⟩ (by decide)).mp hc
     simp at this⟩

end DanmuCli
